import Mathlib

/-!
Verification of the inference-call / event-logging scripts.

The JavaScript sources are embedded shallowly:

* JS string primitives (`trim`, `toLowerCase`, `split("\n")[0]`, `slice`,
  `includes`) are modelled as computable functions over `List Char`.
* The network is an oracle: each `fetch` either rejects with a message
  (`FetchStep.fail`) or yields a response with a status, an optional body
  text (`none` models a body whose `text()` call rejects) and the result
  of `res.json()` (`Except.error` models a JSON parse rejection).
* Thrown `Error` values are identified with their message strings.  The
  retry guard in the source calls `String(e).includes(...)`; `String(e)`
  is `"Error: " ++ message`, and since no needle used by the guard can
  straddle that constant prefix, testing the message alone is equivalent.
-/

/-- Model of `String.prototype.trim` (whitespace stripped at both ends). -/
def jsTrim (s : String) : String :=
  ⟨((s.data.dropWhile Char.isWhitespace).reverse.dropWhile Char.isWhitespace).reverse⟩

/-- Model of `String.prototype.toLowerCase`. -/
def jsToLower (s : String) : String :=
  ⟨s.data.map Char.toLower⟩

/-- Model of `s.split("\n")[0]`: the longest newline-free leading segment. -/
def firstLine (s : String) : String :=
  ⟨s.data.takeWhile (fun c => c != '\n')⟩

/-- The success normalization used by both `callApi` variants:
`String(text).split("\n")[0].toLowerCase().trim()`. -/
def normalizeLabel (s : String) : String :=
  jsTrim (jsToLower (firstLine s))

/-- Model of `s.slice(0, n)`. -/
def sliceTo (s : String) (n : Nat) : String :=
  ⟨s.data.take n⟩

/-- Contiguous-substring test on character lists (model of `String.prototype.includes`). -/
def containsSub (hay needle : List Char) : Bool :=
  match hay with
  | [] => needle.isEmpty
  | c :: t => needle.isPrefixOf (c :: t) || containsSub t needle

/-- Model of `hay.includes(sub)`. -/
def strIncludes (hay sub : String) : Bool :=
  containsSub hay.data sub.data

/-- JS truthiness for a possibly-absent string (absent or empty is falsy). -/
def strTruthy : Option String → Bool
  | none => false
  | some s => s != ""

/-- A JSON result object as used by the parsers: the `generated_text`
and `error` properties (absent fields are `none`; array elements that are
not objects are modelled as a `ResultObj` with both fields absent). -/
structure ResultObj where
  generated_text : Option String
  error : Option String
deriving DecidableEq

/-- The shapes of a decoded response body that the parsers distinguish:
an array of result objects, a single object, JSON `null`, or any other
primitive value. -/
inductive ApiData where
  | arr (elems : List ResultObj)
  | obj (o : ResultObj)
  | nullv
  | other
deriving DecidableEq

/-- Behaviour of one `fetch` of the inference endpoint. -/
inductive FetchStep where
  | fail (msg : String)
  | resp (status : Nat) (bodyText : Option String) (json : Except String ApiData)

/-- Model of `Response.ok`: status in the inclusive range 200–299. -/
def resOk (status : Nat) : Bool :=
  200 ≤ status && status ≤ 299

/-- Model of `safeText` (retry variant): body text capped at 800 characters,
empty if `text()` rejects. -/
def safeText (bodyText : Option String) : String :=
  match bodyText with
  | none => ""
  | some t => sliceTo t 800

/-- Model of `safeError` (permissive variant): body text capped at 500
characters, empty if `text()` rejects. -/
def safeError (bodyText : Option String) : String :=
  match bodyText with
  | none => ""
  | some t => sliceTo t 500

/-- One attempt of the retry variant (`attempt` in the source): on a
non-ok status, throw the per-status message; on an ok status, return the
result of `res.json()`. -/
def attempt (step : FetchStep) : Except String ApiData :=
  match step with
  | .fail m => .error m
  | .resp status bodyText json =>
    if resOk status then json
    else
      let body := safeText bodyText
      let msg := "API error " ++ toString status ++ ". " ++ body
      if status = 402 then
        .error ("Payment required (402). Provide a valid HF token or try later.\n" ++ body)
      else if status = 429 then
        .error ("Rate limited (429). Please slow down and try again.\n" ++ body)
      else if status = 404 ∨ status = 503 then
        .error ("Model is warming up or temporarily unavailable. " ++ msg)
      else
        .error msg

/-- The retry guard of the retry variant:
`String(e).includes("warming up") || String(e).includes("404") || String(e).includes("503")`. -/
def warmupRetry (e : String) : Bool :=
  strIncludes e "warming up" || strIncludes e "404" || strIncludes e "503"

/-- Data acquisition of the retry variant: first attempt, and on a thrown
error matching the warmup guard, one retry (after `sleep(1200)`); any other
error is rethrown. -/
def getDataRetry (first second : FetchStep) : Except String ApiData :=
  match attempt first with
  | .ok d => .ok d
  | .error e => if warmupRetry e then attempt second else .error e

/-- Parse step of the retry variant (truthiness tests on
`data[0]?.generated_text`, `data?.generated_text`, `data?.error`). -/
def parseGenRetry (d : ApiData) : Except String String :=
  match d with
  | .arr elems =>
    match elems with
    | o :: _ =>
      if strTruthy o.generated_text then .ok (o.generated_text.getD "")
      else .error "Unexpected API response."
    | [] => .error "Unexpected API response."
  | .obj o =>
    if strTruthy o.generated_text then .ok (o.generated_text.getD "")
    else if strTruthy o.error then .error (o.error.getD "")
    else .error "Unexpected API response."
  | .nullv => .error "Unexpected API response."
  | .other => .error "Unexpected API response."

/-- Resolved outcome of a `callApi` call: the normalized label, or the
message shown by `showError` (the call resolves with `null`). -/
inductive CallResult where
  | ok (label : String)
  | err (msg : String)
deriving DecidableEq

/-- Shared tail of the retry variant: parse the acquired data and
normalize, any thrown error being caught by the outer handler. -/
def processData (r : Except String ApiData) : CallResult :=
  match r with
  | .error e => .err e
  | .ok d =>
    match parseGenRetry d with
    | .error e => .err e
    | .ok t => .ok (normalizeLabel t)

/-- Message shown by the retry variant when the token input is blank. -/
def hfTokenRequiredMsg : String :=
  "Hugging Face token is required for this endpoint. Create one at hf.co/settings/tokens and paste here."

/-- The retry variant of `callApi` (token required; at most one retry). -/
def callApiRetry (tokenInput : String) (first second : FetchStep) : CallResult :=
  if jsTrim tokenInput = "" then .err hfTokenRequiredMsg
  else processData (getDataRetry first second)

/-- Outcome a single attempt would produce by itself, with no retry
logic: used to state that a retried call is decided by its second attempt. -/
def singleAttemptOutcome (step : FetchStep) : CallResult :=
  processData (attempt step)

/-- Whether the retry variant takes its retry branch, read off the
control flow: a retry happens exactly when the token check passes and
the first attempt throws a message matching the warmup guard. -/
def retriedB (tokenInput : String) (first : FetchStep) : Bool :=
  if jsTrim tokenInput = "" then false
  else
    match attempt first with
    | .ok _ => false
    | .error e => warmupRetry e

/-- Number of `fetch` calls the retry variant issues. -/
def attemptsRetry (tokenInput : String) (first : FetchStep) : Nat :=
  if jsTrim tokenInput = "" then 0
  else if retriedB tokenInput first then 2 else 1

/-- Total milliseconds slept by the retry variant (`sleep(1200)` runs
exactly when the retry branch is taken). -/
def sleepMsRetry (tokenInput : String) (first : FetchStep) : Nat :=
  if retriedB tokenInput first then 1200 else 0

/-- Representative text of the `TypeError` thrown when the permissive
variant evaluates `data.generated_text` on a `null` body (the exact text
is engine dependent; only the fact that some error is thrown and caught
matters to the properties below). -/
def nullReadErrorMsg : String :=
  "Cannot read properties of null"

/-- Status classification of the permissive variant of `callApi`
(`part_000`, first script): per-status messages for 402 and 429, a generic
message otherwise, body capture via `safeError`; an ok status yields the
result of `res.json()`; a rejected `fetch` propagates its message. -/
def classifyPermissive (step : FetchStep) : Except String ApiData :=
  match step with
  | .fail m => .error m
  | .resp status bodyText json =>
    if resOk status then json
    else
      let msg := safeError bodyText
      if status = 402 then
        .error ("Payment required (402). Provide a valid Hugging Face token or try later.\n" ++ msg)
      else if status = 429 then
        .error ("Rate limited (429). Please slow down and try again.\n" ++ msg)
      else
        .error ("API error " ++ toString status ++ ".\n" ++ msg)

/-- Parse step of the permissive variant: `typeof ... === "string"` tests
(so an empty `generated_text` string is still extracted), with the
`null`-body access throwing a `TypeError`. -/
def parseGenPermissive (d : ApiData) : Except String String :=
  match d with
  | .arr elems =>
    match elems with
    | o :: _ =>
      match o.generated_text with
      | some s => .ok s
      | none => .error "Unexpected API response."
    | [] => .error "Unexpected API response."
  | .obj o =>
    match o.generated_text with
    | some s => .ok s
    | none =>
      if strTruthy o.error then .error (o.error.getD "")
      else .error "Unexpected API response."
  | .nullv => .error nullReadErrorMsg
  | .other => .error "Unexpected API response."

/-- The permissive variant of `callApi`: a single fetch, no retry; every
thrown error is caught by the outer handler and shown, the call resolving
with `null`. -/
def callApiPermissive (step : FetchStep) : CallResult :=
  match classifyPermissive step with
  | .error e => .err e
  | .ok d =>
    match parseGenPermissive d with
    | .error e => .err e
    | .ok t => .ok (normalizeLabel t)

/-- Header construction shared verbatim by the permissive variant and by
`analyzeRandomReview` (`lecture_first`): always `Content-Type`, and an
`Authorization` bearer header exactly when the trimmed token is nonempty. -/
def buildHeaders (tokenInput : String) : List (String × String) :=
  let tk := jsTrim tokenInput
  if tk = "" then [("Content-Type", "application/json")]
  else [("Content-Type", "application/json"), ("Authorization", "Bearer " ++ tk)]

/-- Number of `fetch` calls the permissive variant issues: its fetch is
unconditional and it has no retry logic, so exactly one per call,
whatever the token input. -/
def attemptsPermissive (_tokenInput : String) : Nat := 1

/-- Status classification of `analyzeRandomReview` (`lecture_first`):
the error message thrown for a non-ok response, `none` for an ok one.
This variant has no retry logic at all. -/
def classifyLectureFirst (status : Nat) (statusText : String) : Option String :=
  if resOk status then none
  else if status = 503 then some "Model is loading, please try again in a few moments"
  else if status = 429 then some "Rate limit exceeded. Please add an API token for higher limits"
  else if status = 401 then some "Invalid API token provided"
  else some ("API error: " ++ toString status ++ " " ++ statusText)

/-- Escaping of one character as done by `JSON.stringify` inside string
literals (the characters relevant to this code base). -/
def jsonEscapeChar (c : Char) : String :=
  if c = '"' then "\\\""
  else if c = '\\' then "\\\\"
  else if c = '\n' then "\\n"
  else if c = '\t' then "\\t"
  else if c = '\r' then "\\r"
  else c.toString

/-- Escaping of a whole string literal body for `JSON.stringify`. -/
def jsonEscape (s : String) : String :=
  String.join (s.data.map jsonEscapeChar)

/-- Model of `JSON.stringify` on the flat string-valued objects this code
passes as `meta` (the callers pass `{ page, ua }`). -/
def jsonStringifyFlat (fields : List (String × String)) : String :=
  "\x7b" ++
    String.intercalate ","
      (fields.map (fun kv => "\"" ++ jsonEscape kv.1 ++ "\":\"" ++ jsonEscape kv.2 ++ "\"")) ++
  "\x7d"

/-- A payload handed to `sendLogSimple`; absent properties are `none`. -/
structure Payload where
  event : Option String
  variant : Option String
  userId : Option String
  ts : Option Nat
  meta : Option (List (String × String))

/-- Model of `getGasUrl`: the trimmed input value if nonempty, otherwise
the trimmed stored value (missing storage reads as the empty string). -/
def getGasUrl (inputVal : String) (savedUrl : Option String) : String :=
  let entered := jsTrim inputVal
  if entered ≠ "" then entered
  else jsTrim (savedUrl.getD "")

/-- The HTTP request `sendLogSimple` issues. -/
structure LogRequest where
  method : String
  url : String
  headers : List (String × String)
  form : List (String × String)
deriving DecidableEq

/-- Behaviour of the logging fetch: rejection with a stringified error,
or a response with a status and body text. -/
inductive LogNet where
  | fail (msg : String)
  | resp (status : Nat) (text : String)

/-- Observable result of one `sendLogSimple` call: the request issued
(if any), the returned string, and the status-line text it set. -/
structure LogResult where
  request : Option LogRequest
  ret : String
  statusText : String
deriving DecidableEq

/-- The form body built by `sendLogSimple`: exactly the five fields set
on the `URLSearchParams`, in order. -/
def buildLogForm (p : Payload) (now : Nat) : List (String × String) :=
  [("event", p.event.getD ""),
   ("variant", p.variant.getD ""),
   ("userId", p.userId.getD ""),
   ("ts", toString (match p.ts with | none => now | some n => if n = 0 then now else n)),
   ("meta", jsonStringifyFlat (p.meta.getD []))]

/-- Model of `sendLogSimple`: short-circuit on a missing URL, otherwise
one POST with form body and no headers, the response deciding the status
text and return value. -/
def sendLogSimple (inputVal : String) (savedUrl : Option String) (p : Payload) (now : Nat)
    (net : LogNet) : LogResult :=
  let url := getGasUrl inputVal savedUrl
  if url = "" then
    { request := none, ret := "MISSING_URL",
      statusText := "Missing Web App URL. Paste it and click Save URL first." }
  else
    let req : LogRequest := { method := "POST", url := url, headers := [], form := buildLogForm p now }
    match net with
    | .fail m =>
      { request := some req, ret := "ERROR: " ++ m, statusText := "Log failed: " ++ m }
    | .resp status text =>
      if resOk status then
        { request := some req, ret := text, statusText := "Logged ✅" }
      else
        let m := "Error: HTTP " ++ toString status ++ ": " ++ text
        { request := some req, ret := "ERROR: " ++ m, statusText := "Log failed: " ++ m }

/-- Model of `getUserId` over the persisted store: `fresh` is the value
the generator expression `crypto?.randomUUID?.() || Math.random()...`
produced for this call.  Returns the id handed back together with the
store after the call. -/
def getUserId (store : Option String) (fresh : String) : String × Option String :=
  let uid := store.getD ""
  if uid = "" then (fresh, some fresh) else (uid, store)

/-! ### Helper lemmas about the substring test -/

theorem containsSub_nil_needle (l : List Char) : containsSub l [] = true := by
  cases l with
  | nil => rfl
  | cons c t => simp [containsSub, List.isPrefixOf]

theorem isPrefixOf_append_right (x y n : List Char) (h : n.isPrefixOf x = true) :
    n.isPrefixOf (x ++ y) = true := by
  rw [List.isPrefixOf_iff_prefix] at h ⊢
  exact h.trans (List.prefix_append x y)

theorem containsSub_append_left (a b n : List Char) (h : containsSub a n = true) :
    containsSub (a ++ b) n = true := by
  induction a with
  | nil =>
    have hn : n = [] := by simpa [containsSub, List.isEmpty_iff] using h
    subst hn
    exact containsSub_nil_needle _
  | cons c t ih =>
    simp only [containsSub, Bool.or_eq_true] at h
    rcases h with h | h
    · simp only [List.cons_append, containsSub, Bool.or_eq_true]
      exact Or.inl (isPrefixOf_append_right (c :: t) b n h)
    · simp only [List.cons_append, containsSub, Bool.or_eq_true]
      exact Or.inr (ih h)

theorem strIncludes_append_left (a b n : String) (h : strIncludes a n = true) :
    strIncludes (a ++ b) n = true := by
  unfold strIncludes at h ⊢
  rw [String.data_append]
  exact containsSub_append_left _ _ _ h

theorem warmupRetry_append_warming (r : String) :
    warmupRetry ("Model is warming up or temporarily unavailable. " ++ r) = true := by
  have h := strIncludes_append_left "Model is warming up or temporarily unavailable. " r
    "warming up" (by decide)
  simp [warmupRetry, h]

theorem attempt_warmup (status : Nat) (t : Option String) (j : Except String ApiData)
    (h : status = 404 ∨ status = 503) :
    attempt (.resp status t j) =
      .error ("Model is warming up or temporarily unavailable. " ++
        ("API error " ++ toString status ++ ". " ++ safeText t)) := by
  rcases h with h | h <;> subst h <;> rfl

/-! ### Claim theorems -/

/-- C1: if the first attempt of the retry variant yields HTTP 404 or 503,
the routine sleeps 1200 ms once, issues exactly one more fetch (two in
total, so no third attempt), and the final outcome of the call is exactly
the outcome a lone second attempt would produce — the first failure is
discarded. -/
theorem c1_warmup_retry_once (tk : String) (status : Nat) (t : Option String)
    (j : Except String ApiData) (second : FetchStep)
    (htk : jsTrim tk ≠ "") (hst : status = 404 ∨ status = 503) :
    attemptsRetry tk (.resp status t j) = 2 ∧
    sleepMsRetry tk (.resp status t j) = 1200 ∧
    callApiRetry tk (.resp status t j) second = singleAttemptOutcome second := by
  have ha := attempt_warmup status t j hst
  have hw : warmupRetry ("Model is warming up or temporarily unavailable. " ++
      ("API error " ++ toString status ++ ". " ++ safeText t)) = true :=
    warmupRetry_append_warming _
  have hr : retriedB tk (.resp status t j) = true := by
    unfold retriedB
    rw [if_neg htk, ha]
    exact hw
  refine ⟨?_, ?_, ?_⟩
  · unfold attemptsRetry
    rw [if_neg htk, hr]
    rfl
  · unfold sleepMsRetry
    rw [hr]
    rfl
  · unfold callApiRetry getDataRetry singleAttemptOutcome
    rw [if_neg htk, ha]
    simp [hw]

theorem attempt_ok (status : Nat) (t : Option String) (j : Except String ApiData)
    (h : resOk status = true) : attempt (.resp status t j) = j := by
  simp [attempt, h]

theorem callApiRetry_noRetry_error (tk : String) (first second : FetchStep) (msg : String)
    (htk : jsTrim tk ≠ "") (ha : attempt first = .error msg) (hw : warmupRetry msg = false) :
    callApiRetry tk first second = .err msg ∧
    attemptsRetry tk first = 1 ∧ sleepMsRetry tk first = 0 := by
  have hr : retriedB tk first = false := by
    unfold retriedB
    rw [if_neg htk, ha]
    exact hw
  refine ⟨?_, ?_, ?_⟩
  · unfold callApiRetry getDataRetry
    rw [if_neg htk, ha]
    simp [hw, processData]
  · unfold attemptsRetry
    rw [if_neg htk, hr]
    rfl
  · unfold sleepMsRetry
    rw [hr]
    rfl

/-- Witness for C1 at a concrete 404 first response and a successful
second response. -/
theorem c1_warmup_retry_once_witness :
    attemptsRetry "tok" (FetchStep.resp 404 (some "") (Except.error "x")) = 2 ∧
    sleepMsRetry "tok" (FetchStep.resp 404 (some "") (Except.error "x")) = 1200 ∧
    callApiRetry "tok" (FetchStep.resp 404 (some "") (Except.error "x"))
        (FetchStep.resp 200 none (Except.ok (ApiData.obj ⟨some "HIGH", none⟩)))
      = singleAttemptOutcome (FetchStep.resp 200 none (Except.ok (ApiData.obj ⟨some "HIGH", none⟩))) :=
  c1_warmup_retry_once "tok" 404 (some "") (Except.error "x")
    (FetchStep.resp 200 none (Except.ok (ApiData.obj ⟨some "HIGH", none⟩)))
    (by decide) (Or.inl rfl)

/-- C2 counterexample: a first attempt with status 402 whose captured
body text contains the digits "404" does trigger the warmup retry branch
(the guard matches on the error-message text): the routine sleeps 1200 ms
and issues a second request, contrary to the claim that a 402 first
attempt never retries. -/
theorem c2_counterexample_402_retries :
    attemptsRetry "tok" (FetchStep.resp 402 (some "see the 404 page") (Except.error "x")) = 2 ∧
    sleepMsRetry "tok" (FetchStep.resp 402 (some "404 page") (Except.error "x")) = 1200 := by
  decide

/-- C2 amended: when the thrown message (in particular the captured body
text) does not contain "404", "503" or "warming up", a first attempt with
status 402 or 429 makes the retry variant fail with the corresponding
payment-required / rate-limited message, with one fetch and no sleep; a
first attempt with status 401 likewise does not retry but yields only the
generic "API error 401." failure — the Unauthorized-specific message
exists only in the `lecture_first` variant, which has no retry logic. -/
theorem c2_amended_fatal_statuses (tk : String) (t : Option String) (j : Except String ApiData)
    (second : FetchStep) (stText : String) (htk : jsTrim tk ≠ "") :
    (warmupRetry ("Payment required (402). Provide a valid HF token or try later.\n" ++ safeText t) = false →
      callApiRetry tk (.resp 402 t j) second
        = .err ("Payment required (402). Provide a valid HF token or try later.\n" ++ safeText t) ∧
      attemptsRetry tk (.resp 402 t j) = 1 ∧ sleepMsRetry tk (.resp 402 t j) = 0) ∧
    (warmupRetry ("Rate limited (429). Please slow down and try again.\n" ++ safeText t) = false →
      callApiRetry tk (.resp 429 t j) second
        = .err ("Rate limited (429). Please slow down and try again.\n" ++ safeText t) ∧
      attemptsRetry tk (.resp 429 t j) = 1 ∧ sleepMsRetry tk (.resp 429 t j) = 0) ∧
    (warmupRetry ("API error " ++ toString 401 ++ ". " ++ safeText t) = false →
      callApiRetry tk (.resp 401 t j) second
        = .err ("API error " ++ toString 401 ++ ". " ++ safeText t) ∧
      attemptsRetry tk (.resp 401 t j) = 1 ∧ sleepMsRetry tk (.resp 401 t j) = 0) ∧
    classifyLectureFirst 401 stText = some "Invalid API token provided" := by
  refine ⟨?_, ?_, ?_, ?_⟩
  · intro hw
    exact callApiRetry_noRetry_error tk _ second _ htk rfl hw
  · intro hw
    exact callApiRetry_noRetry_error tk _ second _ htk rfl hw
  · intro hw
    exact callApiRetry_noRetry_error tk _ second _ htk rfl hw
  · rfl

/-- Witness for the amended C2 at a concrete 402 response with an empty
body. -/
theorem c2_amended_witness :
    callApiRetry "tok" (FetchStep.resp 402 (some "") (Except.error "x")) (FetchStep.fail "z")
      = CallResult.err
          ("Payment required (402). Provide a valid HF token or try later.\n" ++ safeText (some "")) ∧
    attemptsRetry "tok" (FetchStep.resp 402 (some "") (Except.error "x")) = 1 ∧
    sleepMsRetry "tok" (FetchStep.resp 402 (some "") (Except.error "x")) = 0 :=
  (c2_amended_fatal_statuses "tok" (some "") (Except.error "x") (FetchStep.fail "z") ""
    (by decide)).1 (by decide)

theorem classifyPermissive_ok (status : Nat) (t : Option String) (j : Except String ApiData)
    (h : resOk status = true) : classifyPermissive (.resp status t j) = j := by
  simp [classifyPermissive, h]

theorem callApiRetry_ok_data (tk : String) (status : Nat) (t : Option String)
    (d : ApiData) (second : FetchStep) (hok : resOk status = true) (htk : jsTrim tk ≠ "") :
    callApiRetry tk (.resp status t (.ok d)) second = processData (Except.ok d) := by
  unfold callApiRetry getDataRetry
  rw [if_neg htk, attempt_ok status t _ hok]

theorem callApiPermissive_ok_data (status : Nat) (t : Option String) (d : ApiData)
    (hok : resOk status = true) :
    callApiPermissive (.resp status t (.ok d)) =
      (match parseGenPermissive d with
       | .error e => .err e
       | .ok s => .ok (normalizeLabel s)) := by
  unfold callApiPermissive
  rw [classifyPermissive_ok status t _ hok]

/-- C3: on any 2xx response whose body yields a generated-text string, the
routine resolves with the first line of that string, lowercased and
trimmed — for the retry variant (whose truthiness test requires the string
to be nonempty) and for the permissive variant, in both accepted body
shapes. -/
theorem c3_success_normalization (tk : String) (status : Nat) (t : Option String)
    (s : String) (er : Option String) (rest : List ResultObj) (second : FetchStep)
    (hok : resOk status = true) :
    (jsTrim tk ≠ "" → s ≠ "" →
      callApiRetry tk (.resp status t (.ok (.obj ⟨some s, er⟩))) second
        = .ok (jsTrim (jsToLower (firstLine s)))) ∧
    (jsTrim tk ≠ "" → s ≠ "" →
      callApiRetry tk (.resp status t (.ok (.arr (⟨some s, er⟩ :: rest)))) second
        = .ok (jsTrim (jsToLower (firstLine s)))) ∧
    (callApiPermissive (.resp status t (.ok (.obj ⟨some s, er⟩)))
        = .ok (jsTrim (jsToLower (firstLine s)))) ∧
    (callApiPermissive (.resp status t (.ok (.arr (⟨some s, er⟩ :: rest))))
        = .ok (jsTrim (jsToLower (firstLine s)))) := by
  refine ⟨?_, ?_, ?_, ?_⟩
  · intro htk hs
    rw [callApiRetry_ok_data tk status t _ second hok htk]
    simp [processData, parseGenRetry, strTruthy, hs, normalizeLabel]
  · intro htk hs
    rw [callApiRetry_ok_data tk status t _ second hok htk]
    simp [processData, parseGenRetry, strTruthy, hs, normalizeLabel]
  · rw [callApiPermissive_ok_data status t _ hok]
    simp [parseGenPermissive, normalizeLabel]
  · rw [callApiPermissive_ok_data status t _ hok]
    simp [parseGenPermissive, normalizeLabel]

/-- Witness for C3 at the two bodies named by the spec:
`{"generated_text": "Positive\nbecause..."}` normalizes to `"positive"`
and `[{"generated_text": "HIGH"}]` to `"high"`. -/
theorem c3_success_normalization_witness :
    callApiRetry "tok"
        (FetchStep.resp 200 none (Except.ok (ApiData.obj ⟨some "Positive\nbecause...", none⟩)))
        (FetchStep.fail "z")
      = CallResult.ok "positive" ∧
    callApiPermissive
        (FetchStep.resp 200 none (Except.ok (ApiData.arr [⟨some "HIGH", none⟩])))
      = CallResult.ok "high" := by
  constructor
  · have h := (c3_success_normalization "tok" 200 none "Positive\nbecause..." none []
      (FetchStep.fail "z") (by decide)).1 (by decide) (by decide)
    rw [h]
    decide
  · have h := (c3_success_normalization "tok" 200 none "HIGH" none []
      (FetchStep.fail "z") (by decide)).2.2.2
    rw [h]
    decide

/-- C4: on a 2xx response the retry variant extracts the generated text
from the first element of an array or from a single object; a body whose
shape matches neither yields the "Unexpected API response." failure, and
an object carrying an `error` field (and no usable generated text) yields
a failure carrying exactly that embedded error text. -/
theorem c4_response_shapes (tk : String) (status : Nat) (t : Option String)
    (g e : Option String) (o : ResultObj) (rest : List ResultObj) (second : FetchStep)
    (hok : resOk status = true) (htk : jsTrim tk ≠ "") :
    (strTruthy g = true →
      callApiRetry tk (.resp status t (.ok (.obj ⟨g, e⟩))) second
        = .ok (normalizeLabel (g.getD ""))) ∧
    (strTruthy o.generated_text = true →
      callApiRetry tk (.resp status t (.ok (.arr (o :: rest)))) second
        = .ok (normalizeLabel (o.generated_text.getD ""))) ∧
    (strTruthy g = false → strTruthy e = true →
      callApiRetry tk (.resp status t (.ok (.obj ⟨g, e⟩))) second = .err (e.getD "")) ∧
    (strTruthy g = false → strTruthy e = false →
      callApiRetry tk (.resp status t (.ok (.obj ⟨g, e⟩))) second
        = .err "Unexpected API response.") ∧
    (strTruthy o.generated_text = false →
      callApiRetry tk (.resp status t (.ok (.arr (o :: rest)))) second
        = .err "Unexpected API response.") ∧
    (callApiRetry tk (.resp status t (.ok (.arr []))) second = .err "Unexpected API response.") ∧
    (callApiRetry tk (.resp status t (.ok .other)) second = .err "Unexpected API response.") ∧
    (callApiRetry tk (.resp status t (.ok .nullv)) second = .err "Unexpected API response.") := by
  refine ⟨?_, ?_, ?_, ?_, ?_, ?_, ?_, ?_⟩ <;>
    first
    | (intro h1 h2
       rw [callApiRetry_ok_data tk status t _ second hok htk]
       simp [processData, parseGenRetry, h1, h2])
    | (intro h1
       rw [callApiRetry_ok_data tk status t _ second hok htk]
       simp [processData, parseGenRetry, h1])
    | (rw [callApiRetry_ok_data tk status t _ second hok htk]
       simp [processData, parseGenRetry])

/-- Witness for C4: the spec example, a 2xx body `{"error": "model not
found"}`, yields the failure carrying "model not found". -/
theorem c4_response_shapes_witness :
    callApiRetry "tok"
        (FetchStep.resp 200 none (Except.ok (ApiData.obj ⟨none, some "model not found"⟩)))
        (FetchStep.fail "z")
      = CallResult.err "model not found" := by
  have h := (c4_response_shapes "tok" 200 none none (some "model not found")
    ⟨none, none⟩ [] (FetchStep.fail "z") (by decide) (by decide)).2.2.1 (by decide) (by decide)
  rw [h]
  rfl

/-- C5: errors thrown by the network call are caught, never propagated:
a rejected fetch whose message does not match the warmup guard resolves
the retry variant with a failure carrying that message; if it does match,
the call still resolves (here shown when the second fetch also rejects);
the permissive variant resolves with the rejection message directly; and
for both variants every call resolves with either a success or a failure
outcome. -/
theorem c5_errors_caught (tk m m2 : String) (second f s2 : FetchStep) :
    (jsTrim tk ≠ "" → warmupRetry m = false →
      callApiRetry tk (.fail m) second = .err m) ∧
    (jsTrim tk ≠ "" → warmupRetry m = true →
      callApiRetry tk (.fail m) (.fail m2) = .err m2) ∧
    (callApiPermissive (.fail m) = .err m) ∧
    ((∃ l, callApiRetry tk f s2 = .ok l) ∨ (∃ e, callApiRetry tk f s2 = .err e)) ∧
    ((∃ l, callApiPermissive f = .ok l) ∨ (∃ e, callApiPermissive f = .err e)) := by
  refine ⟨?_, ?_, ?_, ?_, ?_⟩
  · intro htk hw
    exact (callApiRetry_noRetry_error tk (.fail m) second m htk rfl hw).1
  · intro htk hw
    unfold callApiRetry getDataRetry
    rw [if_neg htk]
    simp [attempt, hw, processData]
  · rfl
  · cases hc : callApiRetry tk f s2 with
    | ok l => exact Or.inl ⟨l, rfl⟩
    | err e => exact Or.inr ⟨e, rfl⟩
  · cases hc : callApiPermissive f with
    | ok l => exact Or.inl ⟨l, rfl⟩
    | err e => exact Or.inr ⟨e, rfl⟩

/-- Witness for C5 at a concrete rejected fetch ("Failed to fetch"). -/
theorem c5_errors_caught_witness :
    callApiRetry "tok" (FetchStep.fail "Failed to fetch") (FetchStep.fail "z")
      = CallResult.err "Failed to fetch" ∧
    callApiPermissive (FetchStep.fail "Failed to fetch")
      = CallResult.err "Failed to fetch" :=
  ⟨(c5_errors_caught "tok" "Failed to fetch" "m2" (FetchStep.fail "z")
      (FetchStep.fail "w") (FetchStep.fail "w")).1 (by decide) (by decide),
   (c5_errors_caught "tok" "Failed to fetch" "m2" (FetchStep.fail "z")
      (FetchStep.fail "w") (FetchStep.fail "w")).2.2.1⟩

/-- C6: in the permissive variant (and the identical header construction
of `lecture_first`), a blank or whitespace-only token input still leads to
exactly one request, whose header set has no `Authorization` entry; a
nonempty token input produces an `Authorization: Bearer <token>` header. -/
theorem c6_auth_header (tk : String) :
    (jsTrim tk = "" →
      buildHeaders tk = [("Content-Type", "application/json")] ∧
      List.lookup "Authorization" (buildHeaders tk) = none ∧
      attemptsPermissive tk = 1) ∧
    (jsTrim tk ≠ "" →
      List.lookup "Authorization" (buildHeaders tk) = some ("Bearer " ++ jsTrim tk)) := by
  constructor
  · intro h
    refine ⟨by simp [buildHeaders, h], ?_, rfl⟩
    simp [buildHeaders, h, List.lookup]
  · intro h
    simp only [buildHeaders]
    rw [if_neg h]
    simp [List.lookup]

/-- Witness for C6 with a whitespace-only token and with a real token. -/
theorem c6_auth_header_witness :
    (buildHeaders "  " = [("Content-Type", "application/json")] ∧
     List.lookup "Authorization" (buildHeaders "  ") = none ∧
     attemptsPermissive "  " = 1) ∧
    List.lookup "Authorization" (buildHeaders "hf_abc")
      = some ("Bearer " ++ jsTrim "hf_abc") :=
  ⟨(c6_auth_header "  ").1 (by decide), (c6_auth_header "hf_abc").2 (by decide)⟩

/-- C7 counterexample: a first attempt with the generic status 500 whose
captured body text contains "404" does not make the routine return the
claimed failure carrying status 500: the warmup guard matches the
error-message text, so the retry variant sleeps 1200 ms, issues a second
fetch, and here resolves with the second attempt's success instead. -/
theorem c7_counterexample_500_retries :
    callApiRetry "tok" (FetchStep.resp 500 (some "see 404 page") (Except.error "x"))
        (FetchStep.resp 200 none (Except.ok (ApiData.obj ⟨some "HIGH", none⟩)))
      = CallResult.ok "high" ∧
    attemptsRetry "tok" (FetchStep.resp 500 (some "see 404 page") (Except.error "x")) = 2 ∧
    sleepMsRetry "tok" (FetchStep.resp 500 (some "see 404 page") (Except.error "x")) = 1200 := by
  decide

/-- C7 amended: a non-2xx status outside the specially classified set
makes the attempt throw a failure message carrying the status and the
captured body text, where the capture is a prefix of the body capped at
800 characters (retry variant, `safeText`) or 500 characters (permissive
variant, `safeError`); the permissive variant returns that failure
unconditionally, while the retry variant returns it provided the message
— in particular the captured body text — does not contain "404", "503"
or "warming up" (otherwise the warmup retry path is taken and the second
attempt's outcome prevails). -/
theorem c7_generic_error_truncation (tk : String) (status : Nat) (t : Option String)
    (j : Except String ApiData) (second : FetchStep) (body : String)
    (hok : resOk status = false) (h402 : status ≠ 402) (h429 : status ≠ 429)
    (h404 : status ≠ 404) (h503 : status ≠ 503) (htk : jsTrim tk ≠ "") :
    attempt (.resp status t j)
      = .error ("API error " ++ toString status ++ ". " ++ safeText t) ∧
    (warmupRetry ("API error " ++ toString status ++ ". " ++ safeText t) = false →
      callApiRetry tk (.resp status t j) second
        = .err ("API error " ++ toString status ++ ". " ++ safeText t)) ∧
    callApiPermissive (.resp status t j)
      = .err ("API error " ++ toString status ++ ".\n" ++ safeError t) ∧
    (safeText (some body)).length ≤ 800 ∧
    (safeError (some body)).length ≤ 500 ∧
    (safeText (some body)).data <+: body.data ∧
    (safeError (some body)).data <+: body.data := by
  have ha : attempt (.resp status t j)
      = .error ("API error " ++ toString status ++ ". " ++ safeText t) := by
    simp [attempt, hok, h402, h429, h404, h503]
  refine ⟨ha, ?_, ?_, ?_, ?_, ?_, ?_⟩
  · intro hw
    exact (callApiRetry_noRetry_error tk _ second _ htk ha hw).1
  · simp [callApiPermissive, classifyPermissive, hok, h402, h429]
  · show (body.data.take 800).length ≤ 800
    rw [List.length_take]
    exact Nat.min_le_left _ _
  · show (body.data.take 500).length ≤ 500
    rw [List.length_take]
    exact Nat.min_le_left _ _
  · exact List.take_prefix 800 body.data
  · exact List.take_prefix 500 body.data

/-- Witness for C7 at a concrete 500 response. -/
theorem c7_generic_error_truncation_witness :
    attempt (FetchStep.resp 500 (some "oops") (Except.error "x"))
      = Except.error ("API error " ++ toString 500 ++ ". " ++ safeText (some "oops")) ∧
    callApiRetry "tok" (FetchStep.resp 500 (some "oops") (Except.error "x")) (FetchStep.fail "z")
      = CallResult.err ("API error " ++ toString 500 ++ ". " ++ safeText (some "oops")) ∧
    (safeText (some "oops")).length ≤ 800 := by
  have h := c7_generic_error_truncation "tok" 500 (some "oops") (Except.error "x")
    (FetchStep.fail "z") "oops" (by decide) (by decide) (by decide) (by decide) (by decide)
    (by decide)
  exact ⟨h.1, h.2.1 (by decide), h.2.2.2.1⟩

theorem sendLogSimple_request (inputVal : String) (savedUrl : Option String) (p : Payload)
    (now : Nat) (net : LogNet) (hurl : getGasUrl inputVal savedUrl ≠ "") :
    (sendLogSimple inputVal savedUrl p now net).request =
      some { method := "POST", url := getGasUrl inputVal savedUrl, headers := [],
             form := buildLogForm p now } := by
  unfold sendLogSimple
  rw [if_neg hurl]
  cases net with
  | fail m => rfl
  | resp status text =>
    by_cases h : resOk status = true
    · simp [h]
    · simp [h]

/-- C8: whenever `sendLogSimple` sends at all, it sends a POST with no
custom headers whose form body consists of exactly the fields `event`,
`variant`, `userId`, `ts` and `meta`, in that order, the `meta` value
being the JSON encoding of the supplied meta object (defaulting to the
empty object). -/
theorem c8_log_form (inputVal : String) (savedUrl : Option String) (p : Payload)
    (now : Nat) (net : LogNet) (hurl : getGasUrl inputVal savedUrl ≠ "") :
    (sendLogSimple inputVal savedUrl p now net).request =
      some { method := "POST", url := getGasUrl inputVal savedUrl, headers := [],
             form := buildLogForm p now } ∧
    (buildLogForm p now).map Prod.fst = ["event", "variant", "userId", "ts", "meta"] ∧
    List.lookup "meta" (buildLogForm p now) = some (jsonStringifyFlat (p.meta.getD [])) ∧
    List.lookup "event" (buildLogForm p now) = some (p.event.getD "") := by
  refine ⟨sendLogSimple_request inputVal savedUrl p now net hurl, rfl, ?_, rfl⟩
  simp [buildLogForm, List.lookup]

/-- Witness for C8 at a concrete payload and saved URL. -/
theorem c8_log_form_witness :
    (sendLogSimple "" (some "https://gas/exec")
        { event := some "cta_click", variant := some "A", userId := some "u1",
          ts := some 5, meta := some [("page", "/index")] } 7 (LogNet.resp 200 "ok")).request =
      some { method := "POST", url := getGasUrl "" (some "https://gas/exec"), headers := [],
             form := buildLogForm
               { event := some "cta_click", variant := some "A", userId := some "u1",
                 ts := some 5, meta := some [("page", "/index")] } 7 } ∧
    (buildLogForm
        { event := some "cta_click", variant := some "A", userId := some "u1",
          ts := some 5, meta := some [("page", "/index")] } 7).map Prod.fst
      = ["event", "variant", "userId", "ts", "meta"] :=
  ⟨(c8_log_form "" (some "https://gas/exec")
      { event := some "cta_click", variant := some "A", userId := some "u1",
        ts := some 5, meta := some [("page", "/index")] } 7 (LogNet.resp 200 "ok")
      (by decide)).1,
   (c8_log_form "" (some "https://gas/exec")
      { event := some "cta_click", variant := some "A", userId := some "u1",
        ts := some 5, meta := some [("page", "/index")] } 7 (LogNet.resp 200 "ok")
      (by decide)).2.1⟩

/-- C9: with a blank (or whitespace-only) URL input and nothing stored,
`sendLogSimple` issues no request at all, returns "MISSING_URL", and sets
the guidance status message. -/
theorem c9_missing_url (inputVal : String) (savedUrl : Option String) (p : Payload)
    (now : Nat) (net : LogNet)
    (hin : jsTrim inputVal = "") (hsv : jsTrim (savedUrl.getD "") = "") :
    sendLogSimple inputVal savedUrl p now net =
      { request := none, ret := "MISSING_URL",
        statusText := "Missing Web App URL. Paste it and click Save URL first." } := by
  have hurl : getGasUrl inputVal savedUrl = "" := by
    unfold getGasUrl
    rw [if_neg (by simp [hin]), hsv]
  unfold sendLogSimple
  rw [if_pos hurl]

/-- Witness for C9 with a whitespace-only input and empty storage. -/
theorem c9_missing_url_witness :
    sendLogSimple "  " none
        { event := some "heartbeat", variant := none, userId := some "u1",
          ts := some 5, meta := none } 7 (LogNet.resp 200 "ok") =
      { request := none, ret := "MISSING_URL",
        statusText := "Missing Web App URL. Paste it and click Save URL first." } :=
  c9_missing_url "  " none
    { event := some "heartbeat", variant := none, userId := some "u1",
      ts := some 5, meta := none } 7 (LogNet.resp 200 "ok") (by decide) (by decide)

/-- C10: `getUserId` is idempotent over the persisted store: a stored
(nonempty) id is returned unchanged with the store untouched; with no
stored id, the freshly generated id (nonempty whenever the generator
yields one, as `crypto.randomUUID` does) is returned and stored; and from
any starting store two successive calls return the same id. -/
theorem c10_getUserId_idempotent (store : Option String) (s f f1 f2 : String) :
    (s ≠ "" → getUserId (some s) f = (s, some s)) ∧
    (f ≠ "" → getUserId none f = (f, some f) ∧ (getUserId none f).1 ≠ "") ∧
    (f1 ≠ "" → f2 ≠ "" →
      (getUserId (getUserId store f1).2 f2).1 = (getUserId store f1).1) := by
  refine ⟨?_, ?_, ?_⟩
  · intro hs
    simp [getUserId, hs]
  · intro hf
    exact ⟨by simp [getUserId], by simp [getUserId, hf]⟩
  · intro h1 h2
    cases store with
    | none => simp [getUserId, h1]
    | some s0 =>
      by_cases hs0 : s0 = ""
      · subst hs0
        simp [getUserId, h1]
      · simp [getUserId, hs0]

/-- Witness for C10: stored id returned unchanged; fresh id stored on
first call; two successive calls from the empty store agree. -/
theorem c10_getUserId_idempotent_witness :
    getUserId (some "abc") "f" = ("abc", some "abc") ∧
    getUserId none "u1" = ("u1", some "u1") ∧
    (getUserId (getUserId none "u1").2 "u2").1 = (getUserId none "u1").1 :=
  ⟨(c10_getUserId_idempotent none "abc" "f" "u1" "u2").1 (by decide),
   ((c10_getUserId_idempotent none "abc" "u1" "u1" "u2").2.1 (by decide)).1,
   (c10_getUserId_idempotent none "abc" "f" "u1" "u2").2.2 (by decide) (by decide)⟩
